import Mathlib

/-!
Shallow embedding of the hydrus file-import core:
`hydrus/client/importing/ClientImportFiles.py` and
`hydrus/client/importing/options/FileImportOptions.py`.

Pure functions are translated directly; the stateful pipeline
(`FileImportJob.DoWork`) is translated as a pure function over an
environment record `Env` holding the results of all external
collaborators (digest computer, read port, store probe, metadata
extractors, write port), together with an explicit effect log.
Machine integers are `Nat` (sizes and dimensions are non-negative in
the source); fallible code returns `Option` / `Except`.
-/

namespace Hydrus

/-- Import status codes.  In the source these are the integer constants
`CC.STATUS_UNKNOWN`, `CC.STATUS_SUCCESSFUL_AND_NEW`,
`CC.STATUS_SUCCESSFUL_BUT_REDUNDANT`, `CC.STATUS_DELETED`,
`CC.STATUS_VETOED` from `ClientConstants` (a module outside src/; only
the distinctness of the five codes matters here). -/
inductive StatusCode where
  | STATUS_UNKNOWN
  | STATUS_SUCCESSFUL_AND_NEW
  | STATUS_SUCCESSFUL_BUT_REDUNDANT
  | STATUS_DELETED
  | STATUS_VETOED
deriving DecidableEq, Repr

/-- Media types.  The source compares against `HC.IMAGE_GIF` (an integer
constant from `HydrusConstants`, outside src/); membership of the other
`HC` media-type classes is kept abstract in `Env`. -/
inductive Mime where
  | IMAGE_GIF
  | IMAGE_JPEG
  | IMAGE_PNG
  | VIDEO_MP4
  | APPLICATION_OTHER
deriving DecidableEq, Repr

/-- Modelled from the spec: `HydrusData.ToHumanBytes` is not under src/.
The spec (§7) requires violation messages to embed sizes in
human-readable byte form; render the count with a binary unit suffix,
dividing by 1024 while it is at least 1024 and a larger unit remains. -/
def ToHumanBytesAux : Nat → List String → String
  | n, [] => toString n ++ "B"
  | n, [u] => toString n ++ u
  | n, u :: u2 :: us => if n < 1024 then toString n ++ u else ToHumanBytesAux (n / 1024) (u2 :: us)

/-- Modelled from the spec: human-readable byte rendering (see `ToHumanBytesAux`). -/
def ToHumanBytes (n : Nat) : String :=
  ToHumanBytesAux n ["B", "KB", "MB", "GB", "TB"]

/-- Modelled from the spec: `HydrusData.ConvertResolutionToPrettyString`
is not under src/; it renders a (width, height) pair, where the job may
pass a missing dimension. -/
def ConvertResolutionToPrettyString (p : Option Nat × Option Nat) : String :=
  (match p.1 with | some w => toString w | none => "?") ++ "x" ++
    (match p.2 with | some h => toString h | none => "?")

/-- The fifteen configuration fields of `FileImportOptions.__init__`. -/
structure FileImportOptions where
  exclude_deleted : Bool
  do_not_check_known_urls_before_importing : Bool
  do_not_check_hashes_before_importing : Bool
  allow_decompression_bombs : Bool
  min_size : Option Nat
  max_size : Option Nat
  max_gif_size : Option Nat
  min_resolution : Option (Nat × Nat)
  max_resolution : Option (Nat × Nat)
  automatic_archive : Bool
  associate_primary_urls : Bool
  associate_source_urls : Bool
  present_new_files : Bool
  present_already_in_inbox_files : Bool
  present_already_in_archive_files : Bool
deriving DecidableEq, Repr

/-- `FileImportOptions.AllowsDecompressionBombs`. -/
def FileImportOptions.AllowsDecompressionBombs (o : FileImportOptions) : Bool :=
  o.allow_decompression_bombs

/-- `FileImportOptions.AutomaticallyArchives`. -/
def FileImportOptions.AutomaticallyArchives (o : FileImportOptions) : Bool :=
  o.automatic_archive

/-- `FileImportOptions.ExcludesDeleted`. -/
def FileImportOptions.ExcludesDeleted (o : FileImportOptions) : Bool :=
  o.exclude_deleted

/-- Final step of `CheckFileIsValid`: the max-resolution check.
Null dimensions never trigger (`width is not None and width > max_width`). -/
def FileImportOptions.CheckFileIsValidMaxResolution (o : FileImportOptions)
    (width height : Option Nat) : Except String Unit :=
  match o.max_resolution with
  | some (max_width, max_height) =>
    let too_wide : Bool := match width with | some w => decide (w > max_width) | none => false
    let too_tall : Bool := match height with | some h => decide (h > max_height) | none => false
    if too_wide || too_tall then
      Except.error ("File had resolution " ++ ConvertResolutionToPrettyString (width, height) ++
        " but the upper limit is " ++
        ConvertResolutionToPrettyString (some max_width, some max_height))
    else Except.ok ()
  | none => Except.ok ()

/-- Step of `CheckFileIsValid` after the size checks: the min-resolution
check.  Null dimensions never trigger. -/
def FileImportOptions.CheckFileIsValidResolutions (o : FileImportOptions)
    (width height : Option Nat) : Except String Unit :=
  match o.min_resolution with
  | some (min_width, min_height) =>
    let too_thin : Bool := match width with | some w => decide (w < min_width) | none => false
    let too_short : Bool := match height with | some h => decide (h < min_height) | none => false
    if too_thin || too_short then
      Except.error ("File had resolution " ++ ConvertResolutionToPrettyString (width, height) ++
        " but the lower limit is " ++
        ConvertResolutionToPrettyString (some min_width, some min_height))
    else o.CheckFileIsValidMaxResolution width height
  | none => o.CheckFileIsValidMaxResolution width height

/-- Step of `CheckFileIsValid` after the max-size check: the gif cap. -/
def FileImportOptions.CheckFileIsValidAfterMaxSize (o : FileImportOptions) (size : Nat)
    (mime : Mime) (width height : Option Nat) : Except String Unit :=
  if mime = Mime.IMAGE_GIF then
    match o.max_gif_size with
    | some max_gif_size =>
      if size > max_gif_size then
        Except.error ("File was " ++ ToHumanBytes size ++ " but the upper limit for gifs is " ++
          ToHumanBytes max_gif_size ++ ".")
      else o.CheckFileIsValidResolutions width height
    | none => o.CheckFileIsValidResolutions width height
  else o.CheckFileIsValidResolutions width height

/-- Step of `CheckFileIsValid` after the min-size check: the max-size check. -/
def FileImportOptions.CheckFileIsValidAfterMinSize (o : FileImportOptions) (size : Nat)
    (mime : Mime) (width height : Option Nat) : Except String Unit :=
  match o.max_size with
  | some max_size =>
    if size > max_size then
      Except.error ("File was " ++ ToHumanBytes size ++ " but the upper limit is " ++
        ToHumanBytes max_size ++ ".")
    else o.CheckFileIsValidAfterMaxSize size mime width height
  | none => o.CheckFileIsValidAfterMaxSize size mime width height

/-- `FileImportOptions.CheckFileIsValid`: the ordered validation checks.
The source raises `HydrusExceptions.FileSizeException` with a message;
here a raised violation is `Except.error` carrying the message. -/
def FileImportOptions.CheckFileIsValid (o : FileImportOptions) (size : Nat) (mime : Mime)
    (width height : Option Nat) : Except String Unit :=
  match o.min_size with
  | some min_size =>
    if size < min_size then
      Except.error ("File was " ++ ToHumanBytes size ++ " but the lower limit is " ++
        ToHumanBytes min_size ++ ".")
    else o.CheckFileIsValidAfterMinSize size mime width height
  | none => o.CheckFileIsValidAfterMinSize size mime width height

/-- `FileImportStatus.__init__`: status code, optional content digest
(modelled as an opaque `Nat`), optional media type, note. -/
structure FileImportStatus where
  status : StatusCode
  hash : Option Nat
  mime : Option Mime := none
  note : String := ""
deriving DecidableEq, Repr

/-- `FileImportStatus.AlreadyInDB`. -/
def FileImportStatus.AlreadyInDB (self : FileImportStatus) : Bool :=
  self.status = StatusCode.STATUS_SUCCESSFUL_BUT_REDUNDANT

/-- `FileImportStatus.Duplicate`: an independent value with identical fields. -/
def FileImportStatus.Duplicate (self : FileImportStatus) : FileImportStatus :=
  { status := self.status, hash := self.hash, mime := self.mime, note := self.note }

/-- `FileImportStatus.ShouldImport`. -/
def FileImportStatus.ShouldImport (self : FileImportStatus)
    (file_import_options : FileImportOptions) : Bool :=
  if self.status = StatusCode.STATUS_UNKNOWN then
    true
  else if self.status = StatusCode.STATUS_DELETED then
    if ¬ file_import_options.ExcludesDeleted then true else false
  else false

/-- `FileImportStatus.STATICGetUnknownStatus`. -/
def FileImportStatus.STATICGetUnknownStatus : FileImportStatus :=
  { status := StatusCode.STATUS_UNKNOWN, hash := none }

/-- The structural info tuple returned by `HydrusFileHandling.GetFileInfo`:
`( size, mime, width, height, duration, num_frames, has_audio, num_words )`. -/
structure FileInfo where
  size : Nat
  mime : Mime
  width : Option Nat
  height : Option Nat
  duration : Option Nat
  num_frames : Option Nat
  has_audio : Bool
  num_words : Option Nat
deriving DecidableEq, Repr

/-- The external collaborators reached through `HG.client_controller`,
`HydrusFileHandling`, `HydrusImageHandling` and `ClientImageHandling`
(all outside src/, §6 of the spec): their results for the one input file
of a job, plus the `HC` media-type class memberships. -/
structure Env where
  /-- `HydrusFileHandling.GetHashFromPath` on the (canonicalized) temp file. -/
  hash : Nat
  /-- Read port: `HG.client_controller.Read( 'hash_status', 'sha256', hash )`. -/
  hashStatusLookup : Nat → FileImportStatus
  /-- Store probe: whether `client_files_manager.GetFilePath( hash, mime )`
  succeeds (`false` means it raises `FileMissingException`). -/
  fileIsInStore : Nat → Mime → Bool
  /-- `HydrusFileHandling.GetMime` on the temp file. -/
  sniffMime : Mime
  /-- `HydrusImageHandling.IsDecompressionBomb` on the temp file. -/
  isDecompressionBomb : Bool
  /-- `HydrusFileHandling.GetFileInfo( temp_path, mime )`. -/
  getFileInfo : Mime → FileInfo
  /-- `HydrusFileHandling.GenerateThumbnailBytes`: thumbnail bytes, or the
  message of the exception it raised. -/
  generateThumbnail : Except String (List Nat)
  /-- `ClientImageHandling.GenerateShapePerceptualHashes`. -/
  phashes : List Nat
  /-- `HydrusFileHandling.GetExtraHashesFromPath`. -/
  extraHashes : List Nat
  /-- `HydrusFileHandling.GetFileModifiedTimestamp`. -/
  modifiedTimestamp : Nat
  /-- Write port: `HG.client_controller.WriteSynchronous( 'import_file', self )`. -/
  importFileResult : FileImportStatus
  /-- Membership in `HC.DECOMPRESSION_BOMB_IMAGES`. -/
  decompressionBombImages : Mime → Bool
  /-- Membership in `HC.MIMES_WITH_THUMBNAILS`. -/
  mimesWithThumbnails : Mime → Bool
  /-- Membership in `HC.MIMES_WE_CAN_PHASH`. -/
  mimesWeCanPhash : Mime → Bool

/-- The note written by `CheckFileImportStatus` when the store probe fails. -/
def missingFromStoreNote : String :=
  "The client believed this file was already in the db, but it was truly missing! Import will go ahead, in an attempt to fix the situation."

/-- `CheckFileImportStatus`: reconciles a status believed already-in-db
against the live store.  The second component records whether the store
probe (`GetFilePath`) was invoked at all; the function performs no writes. -/
def CheckFileImportStatus (env : Env) (file_import_status : FileImportStatus) :
    FileImportStatus × Bool :=
  if file_import_status.AlreadyInDB then
    match file_import_status.hash, file_import_status.mime with
    | some hash, some mime =>
      if env.fileIsInStore hash mime then
        (file_import_status, true)
      else
        ({ status := StatusCode.STATUS_UNKNOWN, hash := some hash, mime := some mime,
           note := missingFromStoreNote }, true)
    | _, _ => (file_import_status, false)
  else
    (file_import_status, false)

/-- Fatal (unrecoverable) exceptions raised inside `GenerateInfo`. -/
inductive FatalError where
  | decompressionBomb (msg : String)
  | thumbnailFailure (msg : String)
deriving DecidableEq, Repr

/-- Modelled from the spec: the exception hierarchy lives in
`hydrus.core.HydrusExceptions`, not under src/.  The spec (§4.4, §7)
classifies both decompression-bomb detection and thumbnail failure as
fatal DamagedOrUnusualFile errors (`DecompressionBombException` derives
from `DamagedOrUnusualFileException`). -/
def FatalError.isDamagedOrUnusualFile : FatalError → Bool
  | FatalError.decompressionBomb _ => true
  | FatalError.thumbnailFailure _ => true

/-- Observable side effects of a pipeline run on the shared-state ports. -/
inductive Effect where
  /-- The metadata-extraction stage (`GenerateInfo`) was entered. -/
  | generateInfo
  /-- `client_files_manager.AddFile( hash, mime, temp_path, thumbnail_bytes )`. -/
  | addFile (hash : Option Nat) (mime : Option Mime)
  /-- `HG.client_controller.WriteSynchronous( 'import_file', self )`. -/
  | importFile
  /-- One archive content-update for `hashes = { GetHash() }`, written by
  `PubsubContentUpdates` via `HG.client_controller.Write( 'content_updates', ... )`. -/
  | archiveContentUpdate (hash : Option Nat)
deriving DecidableEq, Repr

def Effect.isArchiveContentUpdate : Effect → Bool
  | Effect.archiveContentUpdate _ => true
  | _ => false

/-- `FileImportJob.GeneratePreImportHashAndStatus`: hash, read-port lookup,
forcing the hash onto the result, then `CheckFileImportStatus`. -/
def GeneratePreImportHashAndStatus (env : Env) : FileImportStatus :=
  let hash := env.hash
  let st := env.hashStatusLookup hash
  let st := { st with hash := some hash }
  (CheckFileImportStatus env st).1

/-- Result of `FileImportJob.GenerateInfo`: the fields it writes onto the job.
`mime` is the resolved media type recorded onto the pre-import status. -/
structure GenerateInfoResult where
  mime : Mime
  file_info : FileInfo
  thumbnail_bytes : Option (List Nat)
  phashes : Option (List Nat)
  extra_hashes : List Nat
  file_modified_timestamp : Nat
deriving DecidableEq, Repr

/-- `FileImportJob.GenerateInfo` after the decompression-bomb gate:
file info, thumbnail (for `HC.MIMES_WITH_THUMBNAILS`, failures wrapped as
`DamagedOrUnusualFileException`), perceptual hashes (for
`HC.MIMES_WE_CAN_PHASH`), extra hashes, modified timestamp. -/
def GenerateInfoRest (env : Env) (mime : Mime) : Except FatalError GenerateInfoResult :=
  let fi := env.getFileInfo mime
  let thumbRes : Except FatalError (Option (List Nat)) :=
    if env.mimesWithThumbnails fi.mime then
      match env.generateThumbnail with
      | Except.ok b => Except.ok (some b)
      | Except.error e =>
        Except.error (FatalError.thumbnailFailure ("Could not render a thumbnail: " ++ e))
    else Except.ok none
  match thumbRes with
  | Except.error e => Except.error e
  | Except.ok thumb =>
    let ph := if env.mimesWeCanPhash fi.mime then some env.phashes else none
    Except.ok { mime := mime, file_info := fi, thumbnail_bytes := thumb, phashes := ph,
                extra_hashes := env.extraHashes,
                file_modified_timestamp := env.modifiedTimestamp }

/-- The media type `GenerateInfo` works with: the pre-import status's if
already known from the lookup, else the freshly sniffed one. -/
def ResolveMime (env : Env) (preMime : Option Mime) : Mime :=
  match preMime with | none => env.sniffMime | some m => m

/-- `FileImportJob.GenerateInfo`: resolve the media type (reuse the
pre-import status's if set, else sniff), run the decompression-bomb gate,
then extract everything else. -/
def GenerateInfo (env : Env) (o : FileImportOptions) (preMime : Option Mime) :
    Except FatalError GenerateInfoResult :=
  let mime := ResolveMime env preMime
  if env.decompressionBombImages mime && !o.AllowsDecompressionBombs then
    if env.isDecompressionBomb then
      Except.error (FatalError.decompressionBomb "Image seems to be a Decompression Bomb!")
    else GenerateInfoRest env mime
  else GenerateInfoRest env mime

/-- `FileImportJob.PubsubContentUpdates`: the archive content-updates it
writes, given the post-import status and the job's hash (`GetHash()`, i.e.
the pre-import status's hash). -/
def PubsubContentUpdates (o : FileImportOptions) (post : FileImportStatus)
    (hash : Option Nat) : List Effect :=
  if post.AlreadyInDB && o.AutomaticallyArchives then
    [Effect.archiveContentUpdate hash]
  else []

/-- `FileImportJob.DoWork`: the full pipeline.  Returns the post-import
status and the effect log, or a fatal error that propagates uncaught.
`CheckIsGoodToImport` destructures `self._file_info` and calls
`CheckFileIsValid( size, mime, width, height )`; only
`HydrusExceptions.FileSizeException` (the only exception `CheckFileIsValid`
raises) is caught, becoming the vetoed status. -/
def DoWork (env : Env) (o : FileImportOptions) :
    Except FatalError (FileImportStatus × List Effect) :=
  let pre := GeneratePreImportHashAndStatus env
  if pre.ShouldImport o then
    match GenerateInfo env o pre.mime with
    | Except.error e => Except.error e
    | Except.ok gi =>
      let pre2 := { pre with mime := some gi.mime }
      match o.CheckFileIsValid gi.file_info.size gi.file_info.mime
          gi.file_info.width gi.file_info.height with
      | Except.ok _ =>
        let post := env.importFileResult
        Except.ok (post,
          [Effect.generateInfo, Effect.addFile pre2.hash pre2.mime, Effect.importFile] ++
            PubsubContentUpdates o post pre2.hash)
      | Except.error msg =>
        let post := { pre2.Duplicate with status := StatusCode.STATUS_VETOED, note := msg }
        Except.ok (post, [Effect.generateInfo] ++ PubsubContentUpdates o post pre2.hash)
  else
    let post := pre.Duplicate
    Except.ok (post, PubsubContentUpdates o post pre.hash)

/-- The dynamic values appearing in the persisted (serialisable) form of
`FileImportOptions`: Python `None`, booleans, non-negative integers and
tuples, as produced by `_GetSerialisableInfo` and consumed by
`_InitialiseFromSerialisableInfo` / `_UpdateSerialisableInfo`. -/
inductive PyVal where
  | pynone
  | pybool (b : Bool)
  | pynat (n : Nat)
  | pytuple (xs : List PyVal)

/-- Encoding of an optional byte count as a persisted value. -/
def encOptNat : Option Nat → PyVal
  | none => PyVal.pynone
  | some n => PyVal.pynat n

/-- Encoding of an optional (width, height) pair as a persisted value. -/
def encOptRes : Option (Nat × Nat) → PyVal
  | none => PyVal.pynone
  | some (w, h) => PyVal.pytuple [PyVal.pynat w, PyVal.pynat h]

/-- Decoding of an optional byte count. -/
def decOptNat : PyVal → Option (Option Nat)
  | PyVal.pynone => some none
  | PyVal.pynat n => some (some n)
  | _ => none

/-- Decoding of an optional (width, height) pair. -/
def decOptRes : PyVal → Option (Option (Nat × Nat))
  | PyVal.pynone => some none
  | PyVal.pytuple [PyVal.pynat w, PyVal.pynat h] => some (some (w, h))
  | _ => none

/-- `FileImportOptions._GetSerialisableInfo`: the
(pre_import_options, post_import_options, presentation_options) triple. -/
def GetSerialisableInfo (o : FileImportOptions) : PyVal :=
  PyVal.pytuple
    [ PyVal.pytuple
        [ PyVal.pybool o.exclude_deleted,
          PyVal.pybool o.do_not_check_known_urls_before_importing,
          PyVal.pybool o.do_not_check_hashes_before_importing,
          PyVal.pybool o.allow_decompression_bombs,
          encOptNat o.min_size, encOptNat o.max_size, encOptNat o.max_gif_size,
          encOptRes o.min_resolution, encOptRes o.max_resolution ],
      PyVal.pytuple
        [ PyVal.pybool o.automatic_archive,
          PyVal.pybool o.associate_primary_urls,
          PyVal.pybool o.associate_source_urls ],
      PyVal.pytuple
        [ PyVal.pybool o.present_new_files,
          PyVal.pybool o.present_already_in_inbox_files,
          PyVal.pybool o.present_already_in_archive_files ] ]

/-- `FileImportOptions._InitialiseFromSerialisableInfo`: destructure the
triple and assign the fifteen fields.  In Python a shape mismatch raises;
here it yields `none`. -/
def InitialiseFromSerialisableInfo (serialisable_info : PyVal) : Option FileImportOptions :=
  match serialisable_info with
  | PyVal.pytuple
      [ PyVal.pytuple
          [ PyVal.pybool exclude_deleted,
            PyVal.pybool do_not_check_known_urls_before_importing,
            PyVal.pybool do_not_check_hashes_before_importing,
            PyVal.pybool allow_decompression_bombs,
            min_size, max_size, max_gif_size, min_resolution, max_resolution ],
        PyVal.pytuple
          [ PyVal.pybool automatic_archive,
            PyVal.pybool associate_primary_urls,
            PyVal.pybool associate_source_urls ],
        PyVal.pytuple
          [ PyVal.pybool present_new_files,
            PyVal.pybool present_already_in_inbox_files,
            PyVal.pybool present_already_in_archive_files ] ] =>
    match decOptNat min_size, decOptNat max_size, decOptNat max_gif_size,
        decOptRes min_resolution, decOptRes max_resolution with
    | some min_size, some max_size, some max_gif_size,
        some min_resolution, some max_resolution =>
      some
        { exclude_deleted := exclude_deleted,
          do_not_check_known_urls_before_importing := do_not_check_known_urls_before_importing,
          do_not_check_hashes_before_importing := do_not_check_hashes_before_importing,
          allow_decompression_bombs := allow_decompression_bombs,
          min_size := min_size, max_size := max_size, max_gif_size := max_gif_size,
          min_resolution := min_resolution, max_resolution := max_resolution,
          automatic_archive := automatic_archive,
          associate_primary_urls := associate_primary_urls,
          associate_source_urls := associate_source_urls,
          present_new_files := present_new_files,
          present_already_in_inbox_files := present_already_in_inbox_files,
          present_already_in_archive_files := present_already_in_archive_files }
    | _, _, _, _, _ => none
  | _ => none

/-- `FileImportOptions._UpdateSerialisableInfo`: one migration step.
The source tests `version == 1` through `version == 4` and implicitly
returns `None` for any other version; a tuple-shape mismatch (a Python
exception) is also rendered as `none` — no claim touches that path. -/
def UpdateSerialisableInfo (version : Nat) (old_serialisable_info : PyVal) :
    Option (Nat × PyVal) :=
  match version with
  | 1 =>
    match old_serialisable_info with
    | PyVal.pytuple [automatic_archive, exclude_deleted, min_size, min_resolution] =>
      some (2, PyVal.pytuple
        [ automatic_archive, exclude_deleted,
          PyVal.pybool true, PyVal.pybool false, PyVal.pybool false,
          min_size, min_resolution ])
    | _ => none
  | 2 =>
    match old_serialisable_info with
    | PyVal.pytuple
        [ automatic_archive, exclude_deleted, present_new_files,
          present_already_in_inbox_files, present_already_in_archive_files,
          min_size, min_resolution ] =>
      some (3, PyVal.pytuple
        [ PyVal.pytuple
            [ exclude_deleted, PyVal.pybool true, min_size, PyVal.pynone,
              PyVal.pynat (32 * 1048576), min_resolution, PyVal.pynone ],
          automatic_archive,
          PyVal.pytuple
            [ present_new_files, present_already_in_inbox_files,
              present_already_in_archive_files ] ])
    | _ => none
  | 3 =>
    match old_serialisable_info with
    | PyVal.pytuple
        [ PyVal.pytuple
            [ exclude_deleted, allow_decompression_bombs, min_size, max_size,
              max_gif_size, min_resolution, max_resolution ],
          post_import_options, presentation_options ] =>
      some (4, PyVal.pytuple
        [ PyVal.pytuple
            [ exclude_deleted, PyVal.pybool false, PyVal.pybool false,
              allow_decompression_bombs, min_size, max_size, max_gif_size,
              min_resolution, max_resolution ],
          PyVal.pytuple [ post_import_options, PyVal.pybool true ],
          presentation_options ])
    | _ => none
  | 4 =>
    match old_serialisable_info with
    | PyVal.pytuple
        [ pre_import_options,
          PyVal.pytuple [ automatic_archive, associate_source_urls ],
          presentation_options ] =>
      some (5, PyVal.pytuple
        [ pre_import_options,
          PyVal.pytuple [ automatic_archive, PyVal.pybool true, associate_source_urls ],
          presentation_options ])
    | _ => none
  | _ => none

/-- Modelled from the spec: the serialisation framework
(`HydrusSerialisable.SerialisableBase`, not under src/) applies
`_UpdateSerialisableInfo` repeatedly while the stored version is below
`SERIALISABLE_VERSION = 5` (§3: "any persisted instance below version 5
must pass through the full migration chain before use"; §4.3: "applied
repeatedly until version 5").  The first argument is fuel. -/
def MigrateToCurrent : Nat → Nat → PyVal → Option (Nat × PyVal)
  | 0, version, info => if version < 5 then none else some (version, info)
  | fuel + 1, version, info =>
    if version < 5 then
      match UpdateSerialisableInfo version info with
      | some (version2, info2) => MigrateToCurrent fuel version2 info2
      | none => none
    else some (version, info)

/-! Violation predicates: the five guard conditions of `CheckFileIsValid`,
read off the source one test at a time, used to state the fixed
first-failure ordering. -/

/-- `self._min_size is not None and size < self._min_size`. -/
def violatesMinSize (o : FileImportOptions) (size : Nat) : Bool :=
  match o.min_size with | some m => decide (size < m) | none => false

/-- `self._max_size is not None and size > self._max_size`. -/
def violatesMaxSize (o : FileImportOptions) (size : Nat) : Bool :=
  match o.max_size with | some m => decide (size > m) | none => false

/-- `mime == HC.IMAGE_GIF and self._max_gif_size is not None and size > self._max_gif_size`. -/
def violatesGifSize (o : FileImportOptions) (size : Nat) (mime : Mime) : Bool :=
  decide (mime = Mime.IMAGE_GIF) &&
    match o.max_gif_size with | some g => decide (size > g) | none => false

/-- `too_thin or too_short` under a configured min-resolution. -/
def violatesMinResolution (o : FileImportOptions) (width height : Option Nat) : Bool :=
  match o.min_resolution with
  | some (min_width, min_height) =>
    (match width with | some w => decide (w < min_width) | none => false) ||
      (match height with | some h => decide (h < min_height) | none => false)
  | none => false

/-- `too_wide or too_tall` under a configured max-resolution. -/
def violatesMaxResolution (o : FileImportOptions) (width height : Option Nat) : Bool :=
  match o.max_resolution with
  | some (max_width, max_height) =>
    (match width with | some w => decide (w > max_width) | none => false) ||
      (match height with | some h => decide (h > max_height) | none => false)
  | none => false

/-! Concrete inputs used to instantiate the theorems with hypotheses. -/

/-- Options with only a 500-byte upper size limit configured (the spec's
veto-path example), all other fields at their `__init__` defaults. -/
def o500 : FileImportOptions :=
  { exclude_deleted := true, do_not_check_known_urls_before_importing := false,
    do_not_check_hashes_before_importing := false, allow_decompression_bombs := true,
    min_size := none, max_size := some 500, max_gif_size := none,
    min_resolution := none, max_resolution := none, automatic_archive := false,
    associate_primary_urls := true, associate_source_urls := true,
    present_new_files := true, present_already_in_inbox_files := true,
    present_already_in_archive_files := true }

/-- Options with both a min-size and a min-resolution configured. -/
def oBoth : FileImportOptions :=
  { o500 with max_size := none, min_size := some 1000, min_resolution := some (50, 50) }

/-- Options that disallow decompression bombs. -/
def oBomb : FileImportOptions :=
  { o500 with max_size := none, allow_decompression_bombs := false }

/-- Options that automatically archive. -/
def oArch : FileImportOptions :=
  { o500 with max_size := none, automatic_archive := true }

/-- A baseline environment: lookup knows nothing, the store has everything,
the file is a 600-byte 100x100 mp4 video, every extractor succeeds, and no
media-type class contains anything. -/
def envBase : Env :=
  { hash := 7,
    hashStatusLookup := fun _ => { status := StatusCode.STATUS_UNKNOWN, hash := none },
    fileIsInStore := fun _ _ => true,
    sniffMime := Mime.VIDEO_MP4,
    isDecompressionBomb := false,
    getFileInfo := fun m =>
      { size := 600, mime := m, width := some 100, height := some 100, duration := none,
        num_frames := none, has_audio := false, num_words := none },
    generateThumbnail := Except.ok [],
    phashes := [], extraHashes := [], modifiedTimestamp := 0,
    importFileResult := { status := StatusCode.STATUS_SUCCESSFUL_AND_NEW, hash := some 7 },
    decompressionBombImages := fun _ => false,
    mimesWithThumbnails := fun _ => false,
    mimesWeCanPhash := fun _ => false }

/-- Environment whose lookup reports the file previously deleted. -/
def envDeleted : Env :=
  { envBase with hashStatusLookup := fun _ =>
      { status := StatusCode.STATUS_DELETED, hash := none } }

/-- Environment whose lookup reports the file already present (with media
type), and whose store really has it. -/
def envRedundant : Env :=
  { envBase with hashStatusLookup := fun _ =>
      { status := StatusCode.STATUS_SUCCESSFUL_BUT_REDUNDANT, hash := none,
        mime := some Mime.IMAGE_JPEG } }

/-- Environment whose store is missing every file. -/
def envStoreEmpty : Env :=
  { envBase with fileIsInStore := fun _ _ => false }

/-- Environment for the decompression-bomb path: a sniffed png in the
bomb-risk class whose pixel-scan probe is positive. -/
def envPngBomb : Env :=
  { envBase with
    sniffMime := Mime.IMAGE_PNG,
    isDecompressionBomb := true,
    decompressionBombImages := fun m => decide (m = Mime.IMAGE_PNG) }

/-- A status claiming already-present with identity and media type set. -/
def stRedundant : FileImportStatus :=
  { status := StatusCode.STATUS_SUCCESSFUL_BUT_REDUNDANT, hash := some 5,
    mime := some Mime.IMAGE_JPEG }

/-- A previously-deleted status. -/
def stDeleted : FileImportStatus :=
  { status := StatusCode.STATUS_DELETED, hash := some 3 }

/-- What `GenerateInfo` extracts in `envBase`: a 600-byte 100x100 mp4 with
no thumbnail, no perceptual hashes, no extra hashes. -/
def giBase : GenerateInfoResult :=
  { mime := Mime.VIDEO_MP4,
    file_info :=
      { size := 600, mime := Mime.VIDEO_MP4, width := some 100, height := some 100,
        duration := none, num_frames := none, has_audio := false, num_words := none },
    thumbnail_bytes := none, phashes := none, extra_hashes := [],
    file_modified_timestamp := 0 }

/-- The spec's version-1 migration example:
`(autoArchive=true, excludeDeleted=true, minSize=100, minResolution=(10,10))`. -/
def serialisableV1Example : PyVal :=
  PyVal.pytuple
    [ PyVal.pybool true, PyVal.pybool true, PyVal.pynat 100,
      PyVal.pytuple [PyVal.pynat 10, PyVal.pynat 10] ]

/-- The version-5 payload that the migration chain produces from
`serialisableV1Example`. -/
def serialisableV5Example : PyVal :=
  PyVal.pytuple
    [ PyVal.pytuple
        [ PyVal.pybool true, PyVal.pybool false, PyVal.pybool false, PyVal.pybool true,
          PyVal.pynat 100, PyVal.pynone, PyVal.pynat (32 * 1048576),
          PyVal.pytuple [PyVal.pynat 10, PyVal.pynat 10], PyVal.pynone ],
      PyVal.pytuple [ PyVal.pybool true, PyVal.pybool true, PyVal.pybool true ],
      PyVal.pytuple [ PyVal.pybool true, PyVal.pybool false, PyVal.pybool false ] ]

/-! Helper lemmas shared by the pipeline theorems. -/

theorem CheckFileImportStatus_fst_hash (env : Env) (st : FileImportStatus) :
    ((CheckFileImportStatus env st).1).hash = st.hash := by
  unfold CheckFileImportStatus
  repeat' split
  all_goals simp_all

theorem GeneratePreImportHashAndStatus_hash (env : Env) :
    (GeneratePreImportHashAndStatus env).hash = some env.hash := by
  unfold GeneratePreImportHashAndStatus
  rw [CheckFileImportStatus_fst_hash]

/-- C9: loading the tuple produced by serialisation restores the state
exactly — `_InitialiseFromSerialisableInfo` composed with
`_GetSerialisableInfo` is the identity on all fifteen configuration
fields. -/
theorem initialise_after_getSerialisable_id (o : FileImportOptions) :
    InitialiseFromSerialisableInfo (GetSerialisableInfo o) = some o := by
  obtain ⟨ed, dku, dhh, adb, ms, xs, gs, mr, xr, aa, apu, asu, pn, pin, pa⟩ := o
  rcases mr with _ | ⟨mw, mh⟩ <;> rcases xr with _ | ⟨xw, xh⟩ <;>
    cases ms <;> cases xs <;> cases gs <;> rfl

/-- C2: migrating the version-1 tuple (autoArchive=true, excludeDeleted=true,
minSize=100, minResolution=(10,10)) through the full chain reaches version 5,
and loading the result yields options with automaticArchive=true,
excludeDeleted=true, minSize=100, minResolution=(10,10),
allowDecompressionBombs=true, maxGifSize=32*1048576,
associatePrimaryUrls=true, associateSourceUrls=true and presentation flags
(showNew=true, showInbox=false, showArchive=false). -/
theorem migration_v1_example_reaches_v5 :
    MigrateToCurrent 10 1 serialisableV1Example = some (5, serialisableV5Example) ∧
    InitialiseFromSerialisableInfo serialisableV5Example = some
      { exclude_deleted := true, do_not_check_known_urls_before_importing := false,
        do_not_check_hashes_before_importing := false, allow_decompression_bombs := true,
        min_size := some 100, max_size := none, max_gif_size := some (32 * 1048576),
        min_resolution := some (10, 10), max_resolution := none,
        automatic_archive := true, associate_primary_urls := true,
        associate_source_urls := true, present_new_files := true,
        present_already_in_inbox_files := false,
        present_already_in_archive_files := false } :=
  ⟨rfl, rfl⟩

/-- C8 counterexample: applying the migration step to the version-5 payload
produced by the chain returns `none` (the Python function falls through and
implicitly returns `None`), not the version-5 data unchanged. -/
theorem updateSerialisableInfo_v5_returns_nothing :
    UpdateSerialisableInfo 5 serialisableV5Example = none ∧
    UpdateSerialisableInfo 5 serialisableV5Example ≠ some (5, serialisableV5Example) :=
  ⟨rfl, fun h => Option.noConfusion h⟩

/-- C8 (amended): no migration rule fires at the target version — the step
function yields `none` for version 5 — and the framework's update loop,
which runs only while the version is below 5, returns version-5 data
unchanged, so migration is a no-op at the target version at the level that
invokes the steps. -/
theorem updateSerialisable_v5_noop (info : PyVal) (fuel : Nat) :
    UpdateSerialisableInfo 5 info = none ∧
    MigrateToCurrent fuel 5 info = some (5, info) := by
  refine ⟨rfl, ?_⟩
  cases fuel <;> simp [MigrateToCurrent]

/-- C10: for every status whose code is not already-present, the reconciler
returns the input unchanged and never probes the store (the second
component records whether the probe ran). -/
theorem checkFileImportStatus_not_redundant (env : Env) (st : FileImportStatus)
    (h : st.status ≠ StatusCode.STATUS_SUCCESSFUL_BUT_REDUNDANT) :
    CheckFileImportStatus env st = (st, false) := by
  unfold CheckFileImportStatus
  simp [FileImportStatus.AlreadyInDB, h]

/-- C10 witness: a previously-deleted status passes through untouched. -/
theorem checkFileImportStatus_not_redundant_witness :
    CheckFileImportStatus envBase stDeleted = (stDeleted, false) :=
  checkFileImportStatus_not_redundant envBase stDeleted (by decide)

/-- C4: reconciling an already-present status — if identity and media type
are both set and the store probe reports the content missing, the result is
a new status with code Unknown, the same identity and media type, and a
non-empty explanatory note; if identity or media type is absent, or the
probe succeeds, the input is returned unchanged.  (The reconciler's only
external call is the read-only probe: it performs no writes.) -/
theorem checkFileImportStatus_selfHeal (env : Env) (st : FileImportStatus) :
    (∀ h m, st.status = StatusCode.STATUS_SUCCESSFUL_BUT_REDUNDANT → st.hash = some h →
      st.mime = some m → env.fileIsInStore h m = false →
      (CheckFileImportStatus env st).1 =
        { status := StatusCode.STATUS_UNKNOWN, hash := some h, mime := some m,
          note := missingFromStoreNote } ∧ missingFromStoreNote ≠ "") ∧
    ((st.hash = none ∨ st.mime = none) → (CheckFileImportStatus env st).1 = st) ∧
    (∀ h m, st.hash = some h → st.mime = some m → env.fileIsInStore h m = true →
      (CheckFileImportStatus env st).1 = st) := by
  obtain ⟨code, hs, ms, note⟩ := st
  refine ⟨?_, ?_, ?_⟩
  · rintro h m rfl rfl rfl hstore
    refine ⟨?_, by decide⟩
    simp [CheckFileImportStatus, FileImportStatus.AlreadyInDB, hstore]
  · rintro (rfl | rfl) <;>
      · unfold CheckFileImportStatus
        repeat' split
        all_goals simp_all
  · rintro h m rfl rfl hstore
    unfold CheckFileImportStatus
    repeat' split
    all_goals simp_all

/-- C4 witness: a status believed already-present whose store probe fails is
demoted to Unknown with the explanatory note, identity and media type
preserved. -/
theorem checkFileImportStatus_selfHeal_witness :
    (CheckFileImportStatus envStoreEmpty stRedundant).1 =
      { status := StatusCode.STATUS_UNKNOWN, hash := some 5, mime := some Mime.IMAGE_JPEG,
        note := missingFromStoreNote } ∧ missingFromStoreNote ≠ "" :=
  (checkFileImportStatus_selfHeal envStoreEmpty stRedundant).1 5 Mime.IMAGE_JPEG rfl rfl rfl rfl

/-! Stage lemmas for `CheckFileIsValid`: a passing check hands over to the
next one, a failing check raises immediately. -/

theorem checkValid_skip_min (o : FileImportOptions) (size : Nat) (mime : Mime)
    (width height : Option Nat) (h : violatesMinSize o size = false) :
    o.CheckFileIsValid size mime width height =
      o.CheckFileIsValidAfterMinSize size mime width height := by
  unfold FileImportOptions.CheckFileIsValid
  unfold violatesMinSize at h
  cases hms : o.min_size with
  | none => rfl
  | some m => rw [hms] at h; simp_all

theorem checkValid_skip_max (o : FileImportOptions) (size : Nat) (mime : Mime)
    (width height : Option Nat) (h : violatesMaxSize o size = false) :
    o.CheckFileIsValidAfterMinSize size mime width height =
      o.CheckFileIsValidAfterMaxSize size mime width height := by
  unfold FileImportOptions.CheckFileIsValidAfterMinSize
  unfold violatesMaxSize at h
  cases hms : o.max_size with
  | none => rfl
  | some m => rw [hms] at h; simp_all

theorem checkValid_skip_gif (o : FileImportOptions) (size : Nat) (mime : Mime)
    (width height : Option Nat) (h : violatesGifSize o size mime = false) :
    o.CheckFileIsValidAfterMaxSize size mime width height =
      o.CheckFileIsValidResolutions width height := by
  unfold FileImportOptions.CheckFileIsValidAfterMaxSize
  unfold violatesGifSize at h
  by_cases hg : mime = Mime.IMAGE_GIF
  · subst hg
    cases hms : o.max_gif_size with
    | none => simp
    | some g => rw [hms] at h; simp_all
  · simp [hg]

theorem checkValid_skip_minRes (o : FileImportOptions) (width height : Option Nat)
    (h : violatesMinResolution o width height = false) :
    o.CheckFileIsValidResolutions width height =
      o.CheckFileIsValidMaxResolution width height := by
  unfold FileImportOptions.CheckFileIsValidResolutions
  unfold violatesMinResolution at h
  cases hms : o.min_resolution with
  | none => rfl
  | some p => obtain ⟨mw, mh⟩ := p; rw [hms] at h; simp_all

theorem checkValid_skip_maxRes (o : FileImportOptions) (width height : Option Nat)
    (h : violatesMaxResolution o width height = false) :
    o.CheckFileIsValidMaxResolution width height = Except.ok () := by
  unfold FileImportOptions.CheckFileIsValidMaxResolution
  unfold violatesMaxResolution at h
  cases hms : o.max_resolution with
  | none => rfl
  | some p => obtain ⟨xw, xh⟩ := p; rw [hms] at h; simp_all

/-- C3: `CheckFileIsValid` runs its checks in the fixed order min-size,
max-size, gif cap, min-resolution, max-resolution, raising on the first
failure so that later checks are never evaluated: each conjunct says that
once every earlier check passes, the first failing check alone determines
the raised violation.  In particular an input violating both min-size and
min-resolution (first conjunct, which carries no assumption about the
resolution) reports the size violation, never the resolution one. -/
theorem checkFileIsValid_order (o : FileImportOptions) (size : Nat) (mime : Mime)
    (width height : Option Nat) :
    (∀ m, o.min_size = some m → size < m →
      o.CheckFileIsValid size mime width height = Except.error
        ("File was " ++ ToHumanBytes size ++ " but the lower limit is " ++
          ToHumanBytes m ++ ".")) ∧
    (violatesMinSize o size = false → ∀ m, o.max_size = some m → size > m →
      o.CheckFileIsValid size mime width height = Except.error
        ("File was " ++ ToHumanBytes size ++ " but the upper limit is " ++
          ToHumanBytes m ++ ".")) ∧
    (violatesMinSize o size = false → violatesMaxSize o size = false →
      mime = Mime.IMAGE_GIF → ∀ g, o.max_gif_size = some g → size > g →
      o.CheckFileIsValid size mime width height = Except.error
        ("File was " ++ ToHumanBytes size ++ " but the upper limit for gifs is " ++
          ToHumanBytes g ++ ".")) ∧
    (violatesMinSize o size = false → violatesMaxSize o size = false →
      violatesGifSize o size mime = false →
      violatesMinResolution o width height = true →
      ∀ mw mh, o.min_resolution = some (mw, mh) →
      o.CheckFileIsValid size mime width height = Except.error
        ("File had resolution " ++ ConvertResolutionToPrettyString (width, height) ++
          " but the lower limit is " ++
          ConvertResolutionToPrettyString (some mw, some mh))) ∧
    (violatesMinSize o size = false → violatesMaxSize o size = false →
      violatesGifSize o size mime = false →
      violatesMinResolution o width height = false →
      violatesMaxResolution o width height = true →
      ∀ xw xh, o.max_resolution = some (xw, xh) →
      o.CheckFileIsValid size mime width height = Except.error
        ("File had resolution " ++ ConvertResolutionToPrettyString (width, height) ++
          " but the upper limit is " ++
          ConvertResolutionToPrettyString (some xw, some xh))) ∧
    (violatesMinSize o size = false → violatesMaxSize o size = false →
      violatesGifSize o size mime = false →
      violatesMinResolution o width height = false →
      violatesMaxResolution o width height = false →
      o.CheckFileIsValid size mime width height = Except.ok ()) := by
  refine ⟨?_, ?_, ?_, ?_, ?_, ?_⟩
  · intro m hm hlt
    unfold FileImportOptions.CheckFileIsValid
    simp [hm, hlt]
  · intro h1 m hm hgt
    rw [checkValid_skip_min o size mime width height h1]
    unfold FileImportOptions.CheckFileIsValidAfterMinSize
    simp [hm, hgt]
  · intro h1 h2 hg g hgs hgt
    rw [checkValid_skip_min o size mime width height h1,
      checkValid_skip_max o size mime width height h2]
    unfold FileImportOptions.CheckFileIsValidAfterMaxSize
    simp [hg, hgs, hgt]
  · intro h1 h2 h3 hviol mw mh hmr
    rw [checkValid_skip_min o size mime width height h1,
      checkValid_skip_max o size mime width height h2,
      checkValid_skip_gif o size mime width height h3]
    unfold FileImportOptions.CheckFileIsValidResolutions
    unfold violatesMinResolution at hviol
    rw [hmr] at hviol ⊢
    simp only at hviol
    dsimp only
    rw [if_pos hviol]
  · intro h1 h2 h3 h4 hviol xw xh hxr
    rw [checkValid_skip_min o size mime width height h1,
      checkValid_skip_max o size mime width height h2,
      checkValid_skip_gif o size mime width height h3,
      checkValid_skip_minRes o width height h4]
    unfold FileImportOptions.CheckFileIsValidMaxResolution
    unfold violatesMaxResolution at hviol
    rw [hxr] at hviol ⊢
    simp only at hviol
    dsimp only
    rw [if_pos hviol]
  · intro h1 h2 h3 h4 h5
    rw [checkValid_skip_min o size mime width height h1,
      checkValid_skip_max o size mime width height h2,
      checkValid_skip_gif o size mime width height h3,
      checkValid_skip_minRes o width height h4,
      checkValid_skip_maxRes o width height h5]

/-- C3 witness: a 600-byte 10x10 file under options demanding at least
1000 bytes and at least 50x50 reports the size violation, not the
resolution one. -/
theorem checkFileIsValid_order_witness :
    oBoth.CheckFileIsValid 600 Mime.IMAGE_PNG (some 10) (some 10) =
      Except.error "File was 600B but the lower limit is 1000B." :=
  (checkFileIsValid_order oBoth 600 Mime.IMAGE_PNG (some 10) (some 10)).1 1000 rfl (by decide)

/-- C5: when the pre-import status refuses import (`ShouldImport` false —
in particular PreviouslyDeleted under excludeDeleted, AlreadyPresent, or
Vetoed), `DoWork` returns a duplicate of the pre-import status, and the
effect log records no metadata extraction, no store add and no write-port
import. -/
theorem dowork_short_circuit (env : Env) (o : FileImportOptions)
    (h : (GeneratePreImportHashAndStatus env).ShouldImport o = false) :
    DoWork env o = Except.ok
      ((GeneratePreImportHashAndStatus env).Duplicate,
        PubsubContentUpdates o (GeneratePreImportHashAndStatus env).Duplicate
          (GeneratePreImportHashAndStatus env).hash) ∧
    ∀ st effs, DoWork env o = Except.ok (st, effs) →
      Effect.generateInfo ∉ effs ∧ Effect.importFile ∉ effs ∧
        ∀ hs ms, Effect.addFile hs ms ∉ effs := by
  have hd : DoWork env o = Except.ok
      ((GeneratePreImportHashAndStatus env).Duplicate,
        PubsubContentUpdates o (GeneratePreImportHashAndStatus env).Duplicate
          (GeneratePreImportHashAndStatus env).hash) := by
    simp only [DoWork]
    rw [h]
    simp
  refine ⟨hd, ?_⟩
  intro st effs heq
  rw [hd] at heq
  simp only [Except.ok.injEq, Prod.mk.injEq] at heq
  obtain ⟨-, rfl⟩ := heq
  by_cases hc : (GeneratePreImportHashAndStatus env).Duplicate.AlreadyInDB &&
      o.AutomaticallyArchives <;>
    simp [PubsubContentUpdates, hc]

/-- C5 witness: a previously-deleted file under options with
excludeDeleted=true short-circuits to a duplicate of the pre-import
status. -/
theorem dowork_short_circuit_witness :
    (GeneratePreImportHashAndStatus envDeleted).ShouldImport o500 = false ∧
    DoWork envDeleted o500 = Except.ok
      ((GeneratePreImportHashAndStatus envDeleted).Duplicate,
        PubsubContentUpdates o500 (GeneratePreImportHashAndStatus envDeleted).Duplicate
          (GeneratePreImportHashAndStatus envDeleted).hash) :=
  ⟨rfl, (dowork_short_circuit envDeleted o500 rfl).1⟩

/-- C7: after every completed `DoWork`, the effect log carries exactly one
archive content-update — for the job's identity — precisely when the final
status is already-present and options auto-archive, and none otherwise. -/
theorem dowork_archive_updates (env : Env) (o : FileImportOptions)
    (st : FileImportStatus) (effs : List Effect)
    (h : DoWork env o = Except.ok (st, effs)) :
    effs.filter Effect.isArchiveContentUpdate =
      (if st.AlreadyInDB && o.AutomaticallyArchives then
        [Effect.archiveContentUpdate (some env.hash)] else []) := by
  have hpre : (GeneratePreImportHashAndStatus env).hash = some env.hash :=
    GeneratePreImportHashAndStatus_hash env
  simp only [DoWork] at h
  by_cases hsi : (GeneratePreImportHashAndStatus env).ShouldImport o = true
  · rw [if_pos hsi] at h
    cases hgen : GenerateInfo env o (GeneratePreImportHashAndStatus env).mime with
    | error e => rw [hgen] at h; exact absurd h (by simp)
    | ok gi =>
      rw [hgen] at h
      dsimp only at h
      cases hchk : o.CheckFileIsValid gi.file_info.size gi.file_info.mime
          gi.file_info.width gi.file_info.height with
      | ok u =>
        cases u
        rw [hchk] at h
        simp only [Except.ok.injEq, Prod.mk.injEq] at h
        obtain ⟨rfl, rfl⟩ := h
        rw [hpre]
        by_cases hc : env.importFileResult.AlreadyInDB && o.AutomaticallyArchives <;>
          simp [PubsubContentUpdates, hc, Effect.isArchiveContentUpdate, List.filter_append,
            hpre]
      | error msg =>
        rw [hchk] at h
        simp only [Except.ok.injEq, Prod.mk.injEq] at h
        obtain ⟨rfl, rfl⟩ := h
        simp [PubsubContentUpdates, FileImportStatus.Duplicate, FileImportStatus.AlreadyInDB,
          Effect.isArchiveContentUpdate]
  · rw [if_neg hsi] at h
    simp only [Except.ok.injEq, Prod.mk.injEq] at h
    obtain ⟨rfl, rfl⟩ := h
    by_cases hc : (GeneratePreImportHashAndStatus env).Duplicate.AlreadyInDB &&
        o.AutomaticallyArchives <;>
      · simp [PubsubContentUpdates, hc, Effect.isArchiveContentUpdate, hpre,
          FileImportStatus.Duplicate]
        intro a _ _ ha
        subst ha
        rfl

/-- C7 witness: a job whose lookup reports already-present, under
auto-archiving options, completes with exactly one archive content-update
for its identity. -/
theorem dowork_archive_updates_witness :
    List.filter Effect.isArchiveContentUpdate [Effect.archiveContentUpdate (some 7)] =
      (if ({ status := StatusCode.STATUS_SUCCESSFUL_BUT_REDUNDANT, hash := some 7,
              mime := some Mime.IMAGE_JPEG, note := "" } : FileImportStatus).AlreadyInDB &&
          oArch.AutomaticallyArchives then
        [Effect.archiveContentUpdate (some 7)] else []) :=
  dowork_archive_updates envRedundant oArch
    { status := StatusCode.STATUS_SUCCESSFUL_BUT_REDUNDANT, hash := some 7,
      mime := some Mime.IMAGE_JPEG, note := "" }
    [Effect.archiveContentUpdate (some 7)] rfl

/-- C1: for a job whose pre-import status permits import and whose metadata
extraction succeeds, if `CheckFileIsValid` raises a violation then the
exception is caught inside the pipeline and `DoWork` returns normally a
status that is a duplicate of the pre-import status (as updated with the
resolved media type) with code Vetoed and note equal to the violation
message; the store add and the write-port import never run and the
violation never surfaces as an exception to the caller. -/
theorem dowork_veto (env : Env) (o : FileImportOptions) (gi : GenerateInfoResult)
    (msg : String)
    (hImport : (GeneratePreImportHashAndStatus env).ShouldImport o = true)
    (hGen : GenerateInfo env o (GeneratePreImportHashAndStatus env).mime = Except.ok gi)
    (hCheck : o.CheckFileIsValid gi.file_info.size gi.file_info.mime gi.file_info.width
      gi.file_info.height = Except.error msg) :
    DoWork env o = Except.ok
      ({ status := StatusCode.STATUS_VETOED,
         hash := (GeneratePreImportHashAndStatus env).hash,
         mime := some gi.mime, note := msg },
       [Effect.generateInfo] ++
         PubsubContentUpdates o
           { status := StatusCode.STATUS_VETOED,
             hash := (GeneratePreImportHashAndStatus env).hash,
             mime := some gi.mime, note := msg }
           (GeneratePreImportHashAndStatus env).hash) := by
  simp only [DoWork]
  rw [if_pos hImport, hGen]
  dsimp only
  rw [hCheck]
  dsimp only [FileImportStatus.Duplicate]

/-- C1 witness: with maxSize=500 and a 600-byte file, the full job returns
a Vetoed status whose note cites 600 and 500 in human-readable byte
form. -/
theorem dowork_veto_witness :
    DoWork envBase o500 = Except.ok
      ({ status := StatusCode.STATUS_VETOED, hash := some 7, mime := some Mime.VIDEO_MP4,
         note := "File was 600B but the upper limit is 500B." },
       [Effect.generateInfo]) :=
  dowork_veto envBase o500 giBase "File was 600B but the upper limit is 500B." rfl rfl rfl

/-- C6: when the resolved media type lies in the decompression-bomb-risk
class, options disallow decompression bombs, and the pixel-scan probe is
positive, `DoWork` propagates the fatal error uncaught — the error is in
the DamagedOrUnusualFile class and no status is returned. -/
theorem dowork_bomb_fatal (env : Env) (o : FileImportOptions)
    (hImport : (GeneratePreImportHashAndStatus env).ShouldImport o = true)
    (hClass : env.decompressionBombImages
      (ResolveMime env (GeneratePreImportHashAndStatus env).mime) = true)
    (hAllow : o.AllowsDecompressionBombs = false)
    (hProbe : env.isDecompressionBomb = true) :
    DoWork env o =
      Except.error (FatalError.decompressionBomb "Image seems to be a Decompression Bomb!") ∧
    FatalError.isDamagedOrUnusualFile
      (FatalError.decompressionBomb "Image seems to be a Decompression Bomb!") = true := by
  refine ⟨?_, rfl⟩
  have hgen : GenerateInfo env o (GeneratePreImportHashAndStatus env).mime =
      Except.error (FatalError.decompressionBomb "Image seems to be a Decompression Bomb!") := by
    simp only [GenerateInfo]
    rw [hClass, hAllow, hProbe]
    simp
  simp only [DoWork]
  rw [if_pos hImport, hgen]

/-- C6 witness: a sniffed png in the bomb-risk class with a positive
pixel-scan probe under bomb-disallowing options aborts the job fatally. -/
theorem dowork_bomb_fatal_witness :
    DoWork envPngBomb oBomb =
      Except.error (FatalError.decompressionBomb "Image seems to be a Decompression Bomb!") ∧
    FatalError.isDamagedOrUnusualFile
      (FatalError.decompressionBomb "Image seems to be a Decompression Bomb!") = true :=
  dowork_bomb_fatal envPngBomb oBomb rfl rfl rfl rfl

end Hydrus
